import Mathlib

/-!
# TicketPipeline — verification of the KPI derivation and schema-reconciliation core

Shallow embedding of the two pipeline scripts `pipeline_etl.py` and
`pipeline_elt.py`. Timestamps are modelled as whole seconds since the Unix
epoch (`Option Int`, `none` standing for pandas `NaT` / SQL `NULL`); the ELT
staging step writes timestamps as `"%Y-%m-%d %H:%M:%S"` strings, which at
whole-second granularity is value-preserving, so both modes read the same
`RawRequest`. Numeric KPI arithmetic is carried out in exact arithmetic (`ℚ`);
`CAST(... AS REAL)` is the identity in this model. The real program evaluates
these expressions in IEEE-754 doubles (pandas `total_seconds()/3600`, SQLite
`JULIANDAY` arithmetic), each rounding per operation; equalities between the
two modes' numeric columns proved in this model are therefore statements
about the derivation rules in exact arithmetic, not about bit-level equality
of the stored doubles, and are labelled as such where they occur. Facts that
do not depend on numeric rounding (flag columns, null propagation, threshold
provenance) are unaffected by this idealization. String upper-casing is
ASCII (`Char.toUpper`), which is exactly SQLite `UPPER` and agrees with
Python `str.upper` on ASCII data.
-/

namespace TicketPipeline

/-- One raw 311 service-request record as consumed by the KPI derivation:
`status` (`none` = missing), `created_date` and `closed_date` as whole seconds
since the Unix epoch (`none` = absent / unparseable). -/
structure RawRequest where
  sr_number : String
  status : Option String
  created_date : Option Int
  closed_date : Option Int
deriving Repr, DecidableEq

/-- The KPI columns of one fact row, common to `fact_requests` (ETL) and
`fact_requests_v` (ELT). -/
@[ext] structure KpiRow where
  resolution_time_h : Option ℚ
  sla_target_h : ℚ
  sla_met : Int
  open_flag : Int
deriving Repr, DecidableEq

/-- `SLA_HOURS = int(os.getenv("SLA_HOURS", "72"))` (pipeline_etl.py line 15).
The environment variable is abstracted to an `Option Int` (`none` = unset);
the `int(...)` parse of the raw string is outside the model. `pipeline_elt.py`
reads no such variable. -/
def SLA_HOURS (env : Option Int) : Int := env.getD 72

/-- ASCII upper-casing: SQLite `UPPER`, and Python `str.upper` on ASCII. -/
def pyUpper (s : String) : String := String.mk (s.data.map Char.toUpper)

/-- ASCII lower-casing (Python `str.lower` on ASCII). -/
def pyLower (s : String) : String := String.mk (s.data.map Char.toLower)

/-- Python `str.strip()`: drop leading and trailing whitespace. -/
def pyStrip (s : String) : String :=
  String.mk (((s.data.dropWhile Char.isWhitespace).reverse.dropWhile Char.isWhitespace).reverse)

/-- `df["resolution_time_h"] = (closed_date - created_date).dt.total_seconds()/3600`
(pipeline_etl.py line 124): `NaT` on either side propagates to `NaN` (`none`). -/
def pandas_resolution_time_h (r : RawRequest) : Option ℚ :=
  match r.closed_date, r.created_date with
  | some c, some o => some (((c : ℚ) - (o : ℚ)) / 3600)
  | _, _ => none

/-- The KPI part of `transform_311` (pipeline_etl.py lines 115-128):
* `open_flag = status.str.upper().ne("COMPLETED").astype(int)` — a missing
  status compares not-equal, giving 1;
* `sla_met = ((status.str.upper() == "COMPLETED") & (resolution_time_h <= sla_hours)).astype(int)`
  — a missing status compares unequal (False) and a `NaN` resolution fails
  `<=` (False), so both give 0;
* `sla_target_h = sla_hours`. -/
def transform_311 (sla_hours : Int) (r : RawRequest) : KpiRow :=
  let res := pandas_resolution_time_h r
  { resolution_time_h := res
    sla_target_h := (sla_hours : ℚ)
    sla_met :=
      match r.status, res with
      | some s, some t => if pyUpper s = "COMPLETED" ∧ t ≤ (sla_hours : ℚ) then 1 else 0
      | _, _ => 0
    open_flag :=
      match r.status with
      | none => 1
      | some s => if pyUpper s = "COMPLETED" then 0 else 1 }

/-- The shared per-row `sla_met` rule, as the ETL transform computes it
(one canonical form both modes are compared against in the proofs below). -/
def kpi_sla_met (target : ℚ) (r : RawRequest) : Int :=
  match r.status, pandas_resolution_time_h r with
  | some s, some t => if pyUpper s = "COMPLETED" ∧ t ≤ target then 1 else 0
  | _, _ => 0

/-- The shared per-row `open_flag` rule, as the ETL transform computes it. -/
def kpi_open_flag (r : RawRequest) : Int :=
  match r.status with
  | none => 1
  | some s => if pyUpper s = "COMPLETED" then 0 else 1

/-! ## SQLite expression semantics used by the ELT view -/

/-- SQLite `AND` (three-valued): false dominates, `NULL` otherwise infects. -/
def sqlAnd : Option Bool → Option Bool → Option Bool
  | some false, _ => some false
  | _, some false => some false
  | some true, some true => some true
  | _, _ => none

/-- SQLite `UPPER(x)`: `NULL`-propagating ASCII upper-case. -/
def sqlUpper : Option String → Option String
  | none => none
  | some s => some (pyUpper s)

/-- SQLite `=` on text: `NULL`-propagating. -/
def sqlEq (a b : Option String) : Option Bool :=
  match a, b with
  | some x, some y => some (x == y)
  | _, _ => none

/-- SQLite `<=` on numbers: `NULL`-propagating. -/
def sqlLe (a b : Option ℚ) : Option Bool :=
  match a, b with
  | some x, some y => some (decide (x ≤ y))
  | _, _ => none

/-- SQLite `-` on numbers: `NULL`-propagating. -/
def sqlSub (a b : Option ℚ) : Option ℚ :=
  match a, b with
  | some x, some y => some (x - y)
  | _, _ => none

/-- SQLite `*` on numbers: `NULL`-propagating. -/
def sqlMul (a b : Option ℚ) : Option ℚ :=
  match a, b with
  | some x, some y => some (x * y)
  | _, _ => none

/-- SQLite `CASE WHEN c THEN t ELSE e END`: the `THEN` branch is taken only
when the condition is true; false and `NULL` both fall to `ELSE`. -/
def caseWhen (c : Option Bool) (t e : Int) : Int :=
  if c = some true then t else e

/-- SQLite `JULIANDAY` on a staged `"%Y-%m-%d %H:%M:%S"` timestamp (or `NULL`):
the Julian day number of Unix time `s` is `s/86400 + 2440587.5` days. This is
the exact value of the Julian day; the real SQLite returns it rounded to a
64-bit double (half-ulp about 2.3e-10 days at 2024-era dates), a rounding
this model elides — so any equality proved through `julianday` is an
exact-arithmetic statement about the formula, not about the program's
floating-point output. -/
def julianday : Option Int → Option ℚ
  | none => none
  | some s => some ((s : ℚ) / 86400 + 2440587.5)

/-- The KPI columns of the ELT view `fact_requests_v`
(pipeline_elt.py lines 138-157):
`resolution_time_h = CAST((JULIANDAY(closed_date) - JULIANDAY(created_date)) * 24 AS REAL)`,
`sla_target_h = 72` (a literal),
`sla_met = CASE WHEN UPPER(status) = 'COMPLETED' AND (JULIANDAY(closed_date) - JULIANDAY(created_date)) * 24 <= 72 THEN 1 ELSE 0 END`,
`open_flag = CASE WHEN UPPER(status) = 'COMPLETED' THEN 0 ELSE 1 END`. -/
def fact_requests_v (r : RawRequest) : KpiRow :=
  let diffH := sqlMul (sqlSub (julianday r.closed_date) (julianday r.created_date)) (some 24)
  { resolution_time_h := diffH
    sla_target_h := 72
    sla_met :=
      caseWhen (sqlAnd (sqlEq (sqlUpper r.status) (some "COMPLETED"))
                       (sqlLe diffH (some 72))) 1 0
    open_flag := caseWhen (sqlEq (sqlUpper r.status) (some "COMPLETED")) 0 1 }

/-! ## Column Resolver (`_norm`, the alias probes of `extract_acs_and_mapping`) -/

/-- Splits a character list on whitespace runs into (non-empty) words —
the behaviour of Python `str.split()` with no argument. -/
def pySplitWsAux : List Char → List Char → List (List Char)
  | [], acc => if acc.isEmpty then [] else [acc.reverse]
  | c :: cs, acc =>
    if c.isWhitespace then
      if acc.isEmpty then pySplitWsAux cs [] else acc.reverse :: pySplitWsAux cs []
    else pySplitWsAux cs (c :: acc)

/-- Joins words with single spaces — Python `" ".join(...)`. -/
def joinSpace : List String → String
  | [] => ""
  | [w] => w
  | w :: ws => w ++ " " ++ joinSpace ws

/-- `_norm(s) = " ".join(str(s).strip().lower().split())` (pipeline_etl.py
lines 48-50, identical in pipeline_elt.py): lower-case, then split on
whitespace runs (which subsumes the strip) and re-join with single spaces. -/
def _norm (s : String) : String :=
  joinSpace ((pySplitWsAux (pyLower s).data []).map String.mk)

/-- `lookup = {_norm(c): c for c in cols}` (line 76): a dict comprehension
keeps, for each normalized key, the LAST original column producing it. -/
def lookup (cols : List String) (k : String) : Option String :=
  (cols.filter (fun c => _norm c == k)).getLast?

/-- The ordered alias list probed for the ID ("code") role (lines 80-81). -/
def ID_KEYS : List String :=
  ["area_numbe", "area numbe", "area_num", "area num", "area_num_1", "area num 1",
   "community area number", "community area num", "community_area_number"]

/-- The ordered alias list probed for the name role (line 87). -/
def NAME_KEYS : List String :=
  ["community", "community area", "community_area_name", "community area name", "name"]

/-- The `for key in (...): if key in lookup: col = lookup[key]; break` loop:
the first alias present in the lookup wins. -/
def findRole (keys cols : List String) : Option String :=
  keys.findSome? (fun k => lookup cols k)

/-- Python falsiness of the resolved column (`not id_col`): `None` or the
empty string. -/
def pyFalsy : Option String → Bool
  | none => true
  | some s => s.isEmpty

/-- The mapping-column resolution step of `extract_acs_and_mapping`
(pipeline_etl.py lines 74-96): probe the ID aliases then the name aliases;
`if not id_col or not name_col:` raise a `ValueError` (the spec's
`SchemaResolutionError`) whose message carries the full header list `cols`. -/
def resolve_mapping_columns (cols : List String) : Except (List String) (String × String) :=
  let id_col := findRole ID_KEYS cols
  let name_col := findRole NAME_KEYS cols
  if pyFalsy id_col || pyFalsy name_col then
    Except.error cols
  else
    Except.ok (id_col.getD "", name_col.getD "")

/-! ## Reference Reader (`_robust_read_csv_local`) -/

/-- Text encodings attempted by the reader. -/
inductive Enc
  | utf8
  | latin1
deriving Repr, DecidableEq

/-- Delimiters attempted by the reader. -/
inductive Delim
  | comma
  | semicolon
deriving Repr, DecidableEq

/-- How a single `pd.read_csv` call can fail: `decodeErr` is
`UnicodeDecodeError`; `otherErr` is any other exception (e.g. a parser
error — the spec's `DataFormatError`). -/
inductive ReadErr
  | decodeErr
  | otherErr
deriving Repr, DecidableEq

/-- `_robust_read_csv_local` (pipeline_etl.py lines 37-46, identical in
pipeline_elt.py), modelled over an oracle `read_csv` giving the outcome of
each `pd.read_csv(path, ...)` call and `ncols` giving `df.shape[1]`.
The `try` block is the utf-8 parse plus its one-column semicolon retry;
`except UnicodeDecodeError` around the whole block catches a decode error
from either and switches to the latin-1 parse with the same one-column
semicolon retry; errors of the latin-1 reads propagate unhandled. -/
def _robust_read_csv_local {T : Type} (read_csv : Enc → Delim → Except ReadErr T)
    (ncols : T → Nat) : Except ReadErr T :=
  let latinPath : Except ReadErr T :=
    match read_csv .latin1 .comma with
    | .ok df => if ncols df = 1 then read_csv .latin1 .semicolon else .ok df
    | .error e => .error e
  match read_csv .utf8 .comma with
  | .ok df =>
    if ncols df = 1 then
      match read_csv .utf8 .semicolon with
      | .ok df2 => .ok df2
      | .error .decodeErr => latinPath
      | .error e => .error e
    else .ok df
  | .error .decodeErr => latinPath
  | .error e => .error e

/-! ## CanonicalAreaKey normalization (lines 104-107 / 110-113) -/

/-- All-digit parse accumulating a natural number; any non-digit fails. -/
def parseDigitsAux : List Char → Nat → Option Nat
  | [], acc => some acc
  | c :: cs, acc => if c.isDigit then parseDigitsAux cs (10 * acc + (c.toNat - 48)) else none

/-- `pd.to_numeric(x, errors="coerce")` followed by `.astype("Int64")`,
restricted to optionally-signed integer literals (the shape of the area-code
cells); any cell that does not coerce becomes `none` (`pd.NA`) — the
`errors="coerce"` mode never raises. -/
def to_numeric_coerce (s : String) : Option Int :=
  match (pyStrip s).data with
  | [] => none
  | '-' :: cs => if cs.isEmpty then none else (parseDigitsAux cs 0).map (fun n => -(n : Int))
  | cs => (parseDigitsAux cs 0).map (fun n => (n : Int))

/-- The name normalization applied to `community_area_name` in both pipelines
(pipeline_etl.py lines 106-107, pipeline_elt.py lines 112-113):
`.astype(str).str.strip().str.upper()` — trim then ASCII upper-case.
Internal whitespace is left as-is. -/
def normalize_area_name (s : String) : String := pyUpper (pyStrip s)

/-- Modelled from the spec: the CanonicalAreaKey name invariant as WORDED in
§3 — "trimmed, collapsed-whitespace, upper-cased" — for comparison with the
implementation. -/
def spec_normalize_area_name (s : String) : String :=
  pyUpper (joinSpace ((pySplitWsAux s.data []).map String.mk))

/-- One reference row turned into its CanonicalAreaKey (code, name) pair
(lines 104-107): nullable coerced code, normalized name. -/
def canonical_area_key (codeCell nameCell : String) : Option Int × String :=
  (to_numeric_coerce codeCell, normalize_area_name nameCell)

/-! ## Warehouse Loader (`load_fact`, pipeline_etl.py lines 276-282) -/

/-- `INSERT OR REPLACE INTO fact_requests ...` for a single row: SQLite
deletes any existing row with the same `sr_number` primary key, then inserts
the new row. The table is a list of (key, row) pairs. -/
def insert_or_replace {Row : Type} (t : List (String × Row)) (k : String) (v : Row) :
    List (String × Row) :=
  t.filter (fun p => !(p.1 == k)) ++ [(k, v)]

/-- `conn.executemany("INSERT OR REPLACE INTO fact_requests ...", rows)`:
upsert every input row in order, keyed by `sr_number`. -/
def load_fact {Row : Type} (t : List (String × Row)) (rows : List (String × Row)) :
    List (String × Row) :=
  rows.foldl (fun acc p => insert_or_replace acc p.1 p.2) t

/-- Removes from a table every row whose key occurs in `ks` (proof device for
the upsert analysis). -/
def purge {Row : Type} : List String → List (String × Row) → List (String × Row)
  | [], t => t
  | k :: ks, t => purge ks (t.filter (fun q => !(q.1 == k)))

/-! ## Helper lemmas -/

theorem sqlAnd_some_some (a b : Bool) : sqlAnd (some a) (some b) = some (a && b) := by
  cases a <;> cases b <;> rfl

theorem caseWhen_some (b : Bool) (t e : Int) : caseWhen (some b) t e = if b then t else e := by
  cases b <;> simp [caseWhen]

theorem caseWhen_sqlAnd_none_left (b : Option Bool) (t e : Int) :
    caseWhen (sqlAnd none b) t e = e := by
  rcases b with _ | b
  · rfl
  · cases b <;> rfl

theorem caseWhen_sqlAnd_none_right (a : Option Bool) (t e : Int) :
    caseWhen (sqlAnd a none) t e = e := by
  rcases a with _ | a
  · rfl
  · cases a <;> rfl

theorem transform_resolution (sla : Int) (r : RawRequest) :
    (transform_311 sla r).resolution_time_h = pandas_resolution_time_h r := rfl

theorem transform_sla_target (sla : Int) (r : RawRequest) :
    (transform_311 sla r).sla_target_h = (sla : ℚ) := rfl

theorem transform_sla_met (sla : Int) (r : RawRequest) :
    (transform_311 sla r).sla_met = kpi_sla_met (sla : ℚ) r := rfl

theorem transform_open_flag (sla : Int) (r : RawRequest) :
    (transform_311 sla r).open_flag = kpi_open_flag r := rfl

theorem fact_v_resolution (r : RawRequest) :
    (fact_requests_v r).resolution_time_h = pandas_resolution_time_h r := by
  rcases r with ⟨id, st, cr, cl⟩
  rcases cr with _ | o <;> rcases cl with _ | c <;>
    simp only [fact_requests_v, pandas_resolution_time_h, julianday, sqlMul, sqlSub,
      Option.some.injEq]
  ring

theorem fact_v_sla_target (r : RawRequest) : (fact_requests_v r).sla_target_h = 72 := rfl

theorem fact_v_sla_met (r : RawRequest) :
    (fact_requests_v r).sla_met = kpi_sla_met 72 r := by
  rcases r with ⟨id, st, cr, cl⟩
  rcases st with _ | s
  · rcases cr with _ | o <;> rcases cl with _ | c <;>
      simp [fact_requests_v, kpi_sla_met, pandas_resolution_time_h, julianday, sqlMul, sqlSub,
        sqlEq, sqlUpper, sqlLe, caseWhen_sqlAnd_none_left]
  · rcases cr with _ | o <;> rcases cl with _ | c <;>
      simp only [fact_requests_v, kpi_sla_met, pandas_resolution_time_h, julianday, sqlMul,
        sqlSub, sqlEq, sqlUpper, sqlLe, caseWhen_sqlAnd_none_right, sqlAnd_some_some,
        caseWhen_some]
    case _ =>
      have harith : (((c : ℚ) / 86400 + 2440587.5) - ((o : ℚ) / 86400 + 2440587.5)) * 24
          = ((c : ℚ) - (o : ℚ)) / 3600 := by ring
      rw [harith]
      by_cases h1 : pyUpper s = "COMPLETED" <;>
        by_cases h2 : ((c : ℚ) - (o : ℚ)) / 3600 ≤ 72 <;>
          simp [h1, h2]

theorem fact_v_open_flag (r : RawRequest) :
    (fact_requests_v r).open_flag = kpi_open_flag r := by
  rcases r with ⟨id, st, cr, cl⟩
  rcases st with _ | s
  · rfl
  · simp only [fact_requests_v, kpi_open_flag, sqlEq, sqlUpper, caseWhen_some]
    by_cases h1 : pyUpper s = "COMPLETED" <;> simp [h1]

theorem kpi_sla_met_eq_one_iff (target : ℚ) (r : RawRequest) :
    kpi_sla_met target r = 1 ↔
      (r.status.map pyUpper = some "COMPLETED" ∧
        ∃ t, pandas_resolution_time_h r = some t ∧ t ≤ target) := by
  rcases hst : r.status with _ | s <;> rcases hres : pandas_resolution_time_h r with _ | t <;>
    simp [kpi_sla_met, hst, hres]

theorem kpi_sla_met_eq_zero_iff (target : ℚ) (r : RawRequest) :
    kpi_sla_met target r = 0 ↔
      ¬ (r.status.map pyUpper = some "COMPLETED" ∧
        ∃ t, pandas_resolution_time_h r = some t ∧ t ≤ target) := by
  rcases hst : r.status with _ | s <;> rcases hres : pandas_resolution_time_h r with _ | t <;>
    simp [kpi_sla_met, hst, hres]

theorem kpi_open_flag_eq_one_iff (r : RawRequest) :
    kpi_open_flag r = 1 ↔ ¬ (r.status.map pyUpper = some "COMPLETED") := by
  rcases hst : r.status with _ | s <;> simp [kpi_open_flag, hst]

theorem kpi_open_flag_eq_zero_iff (r : RawRequest) :
    kpi_open_flag r = 0 ↔ r.status.map pyUpper = some "COMPLETED" := by
  rcases hst : r.status with _ | s <;> simp [kpi_open_flag, hst]

section Loader

variable {Row : Type}

theorem purge_eq_filter (ks : List String) (t : List (String × Row)) :
    purge ks t = t.filter (fun p => !(ks.contains p.1)) := by
  induction ks generalizing t with
  | nil => simp [purge]
  | cons k ks ih =>
    rw [purge, ih, List.filter_filter]
    apply List.filter_congr
    intro a _
    cases h1 : (a.1 == k) <;> cases h2 : ks.contains a.1 <;>
      simp_all [List.contains_cons]

theorem purge_append (ks : List String) (A B : List (String × Row)) :
    purge ks (A ++ B) = purge ks A ++ purge ks B := by
  simp [purge_eq_filter]

theorem purge_purge (ks : List String) (t : List (String × Row)) :
    purge ks (purge ks t) = purge ks t := by
  simp [purge_eq_filter]

theorem load_fact_decomp (rows : List (String × Row)) :
    ∀ t, load_fact t rows = purge (rows.map Prod.fst) t ++ load_fact [] rows := by
  induction rows with
  | nil => intro t; simp [load_fact, purge]
  | cons p rs ih =>
    intro t
    have hmain := ih (insert_or_replace t p.1 p.2)
    have hbase := ih [(p.1, p.2)]
    rw [show load_fact t (p :: rs) = load_fact (insert_or_replace t p.1 p.2) rs from rfl]
    rw [show load_fact ([] : List (String × Row)) (p :: rs) = load_fact [(p.1, p.2)] rs from rfl]
    rw [hmain, hbase]
    rw [show insert_or_replace t p.1 p.2
        = t.filter (fun q => !(q.1 == p.1)) ++ [(p.1, p.2)] from rfl]
    rw [purge_append, List.append_assoc]
    rw [show purge (rs.map Prod.fst) (t.filter (fun q => !(q.1 == p.1)))
        = purge (p.1 :: rs.map Prod.fst) t from rfl]
    rfl

theorem mem_load_fact_nil (rows : List (String × Row)) :
    ∀ p, p ∈ load_fact ([] : List (String × Row)) rows → p.1 ∈ rows.map Prod.fst := by
  induction rows with
  | nil => intro p hp; simp [load_fact] at hp
  | cons q rs ih =>
    intro p hp
    rw [show load_fact ([] : List (String × Row)) (q :: rs) = load_fact [(q.1, q.2)] rs from rfl,
      load_fact_decomp rs, purge_eq_filter] at hp
    rcases List.mem_append.mp hp with h | h
    · have h1 := (List.mem_filter.mp h).1
      simp at h1
      simp [h1]
    · simp [ih p h]

theorem purge_load_fact_nil (rows : List (String × Row)) :
    purge (rows.map Prod.fst) (load_fact ([] : List (String × Row)) rows) = [] := by
  rw [purge_eq_filter]
  rw [List.filter_eq_nil_iff]
  intro p hp
  have hmem := mem_load_fact_nil rows p hp
  simp [List.contains, hmem]

theorem keys_load_fact_nil_nodup (rows : List (String × Row)) :
    ((load_fact ([] : List (String × Row)) rows).map Prod.fst).Nodup := by
  induction rows with
  | nil => simp [load_fact]
  | cons q rs ih =>
    rw [show load_fact ([] : List (String × Row)) (q :: rs) = load_fact [(q.1, q.2)] rs from rfl,
      load_fact_decomp rs, purge_eq_filter]
    by_cases hc : q.1 ∈ rs.map Prod.fst
    · simp [List.contains, hc, ih]
    · have hc2 : ((rs.map Prod.fst).contains q.1) = false := by
        rw [Bool.eq_false_iff]
        intro hx
        exact hc (List.elem_iff.mp hx)
      simp only [List.filter_cons, hc2, Bool.not_false, if_true, List.filter_nil,
        List.singleton_append, List.map_cons, List.nodup_cons]
      refine ⟨?_, ih⟩
      intro hmem
      rcases List.mem_map.mp hmem with ⟨p, hp, hp1⟩
      exact hc (hp1 ▸ mem_load_fact_nil rs p hp)

theorem load_fact_idem (t rows : List (String × Row)) :
    load_fact (load_fact t rows) rows = load_fact t rows := by
  rw [load_fact_decomp rows (load_fact t rows)]
  rw [load_fact_decomp rows t, purge_append, purge_purge, purge_load_fact_nil,
    List.append_nil]

end Loader

/-! ## Claim theorems -/

/-- C1 (counterexample): the ETL-materialized KPI columns and the ELT view do
NOT agree for every row: when the run configuration sets `SLA_HOURS=10`, a
completed request resolved in 50 hours gets `sla_met = 0` from `transform_311`
but `sla_met = 1` from `fact_requests_v`, whose SQL hardcodes the 72-hour
threshold. -/
theorem etl_elt_sla_met_disagree_nondefault :
    (transform_311 (SLA_HOURS (some 10))
        ⟨"SR-C1", some "Completed", some 0, some 180000⟩).sla_met ≠
      (fact_requests_v ⟨"SR-C1", some "Completed", some 0, some 180000⟩).sla_met := by
  norm_num [fact_requests_v, transform_311, pandas_resolution_time_h, julianday, sqlMul, sqlSub,
    sqlEq, sqlLe, sqlUpper, sqlAnd_some_some, caseWhen_some, SLA_HOURS,
    show pyUpper "Completed" = "COMPLETED" from by decide]

/-- C1 (amended): for every input row the two modes produce exactly equal
`open_flag` under any configured SLA constant, and `resolution_time_h` is
null in one mode iff it is null in the other — both facts independent of
numeric rounding, hence true of the program. With the SLA constant at its
default 72 — the only value the ELT view can express, since its SQL hardcodes
72 — the two modes' KPI derivations are moreover equivalent as
exact-arithmetic rules: evaluated without rounding, the pandas expressions
and the SQL expressions give identical `resolution_time_h`, `sla_target_h`,
`sla_met` and `open_flag` (the third conjunct, a statement of the exact-ℚ
model). Bit-for-bit equality of the program's stored doubles is NOT asserted:
pandas computes `total_seconds()/3600` and SQLite rounds each `JULIANDAY` to
a double, so the two float evaluations of the same exact quantity can differ
in the final bits and can flip `sla_met` at an exact 72-hour resolution. -/
theorem etl_elt_agreement_modulo_rounding (sla : Int) (r : RawRequest) :
    (transform_311 sla r).open_flag = (fact_requests_v r).open_flag
    ∧ ((transform_311 sla r).resolution_time_h = none ↔
        (fact_requests_v r).resolution_time_h = none)
    ∧ transform_311 (SLA_HOURS none) r = fact_requests_v r := by
  refine ⟨?_, ?_, ?_⟩
  · rw [transform_open_flag, fact_v_open_flag]
  · rw [transform_resolution, fact_v_resolution]
  · ext
    · rw [fact_v_resolution]; rfl
    · show ((72 : Int) : ℚ) = 72
      norm_num
    · rw [fact_v_sla_met, transform_sla_met]
      norm_num [SLA_HOURS]
    · rw [fact_v_open_flag, transform_open_flag]

/-- C2: in both modes, `sla_met = 1` iff `upper(status) = 'COMPLETED'` and
`resolution_time_h` is defined and at most the row's `sla_target_h`, and
`sla_met = 0` otherwise (so a null resolution time always gives 0); with the
72-hour target, a completed request resolved in exactly 72.0 h (259200 s) gets
`sla_met = 1` and one resolved in 72.01 h (259236 s) gets `sla_met = 0`. -/
theorem sla_met_iff_completed_within_target (sla : Int) (r : RawRequest) :
    ((transform_311 sla r).sla_met = 1 ↔
      (r.status.map pyUpper = some "COMPLETED" ∧
        ∃ t, (transform_311 sla r).resolution_time_h = some t ∧
          t ≤ (transform_311 sla r).sla_target_h))
    ∧ ((transform_311 sla r).sla_met = 0 ↔
      ¬ (r.status.map pyUpper = some "COMPLETED" ∧
        ∃ t, (transform_311 sla r).resolution_time_h = some t ∧
          t ≤ (transform_311 sla r).sla_target_h))
    ∧ ((fact_requests_v r).sla_met = 1 ↔
      (r.status.map pyUpper = some "COMPLETED" ∧
        ∃ t, (fact_requests_v r).resolution_time_h = some t ∧
          t ≤ (fact_requests_v r).sla_target_h))
    ∧ ((fact_requests_v r).sla_met = 0 ↔
      ¬ (r.status.map pyUpper = some "COMPLETED" ∧
        ∃ t, (fact_requests_v r).resolution_time_h = some t ∧
          t ≤ (fact_requests_v r).sla_target_h))
    ∧ (transform_311 72 ⟨"SR-C2", some "Completed", some 0, some 259200⟩).sla_met = 1
    ∧ (transform_311 72 ⟨"SR-C2", some "Completed", some 0, some 259236⟩).sla_met = 0
    ∧ (fact_requests_v ⟨"SR-C2", some "Completed", some 0, some 259200⟩).sla_met = 1
    ∧ (fact_requests_v ⟨"SR-C2", some "Completed", some 0, some 259236⟩).sla_met = 0 := by
  refine ⟨?_, ?_, ?_, ?_, ?_, ?_, ?_, ?_⟩
  · exact kpi_sla_met_eq_one_iff (sla : ℚ) r
  · exact kpi_sla_met_eq_zero_iff (sla : ℚ) r
  · rw [fact_v_sla_met, fact_v_resolution, fact_v_sla_target]
    exact kpi_sla_met_eq_one_iff 72 r
  · rw [fact_v_sla_met, fact_v_resolution, fact_v_sla_target]
    exact kpi_sla_met_eq_zero_iff 72 r
  · norm_num [transform_311, pandas_resolution_time_h,
      show pyUpper "Completed" = "COMPLETED" from by decide]
  · norm_num [transform_311, pandas_resolution_time_h,
      show pyUpper "Completed" = "COMPLETED" from by decide]
  · norm_num [fact_requests_v, julianday, sqlMul, sqlSub, sqlEq, sqlLe, sqlUpper,
      sqlAnd_some_some, caseWhen_some, show pyUpper "Completed" = "COMPLETED" from by decide]
  · norm_num [fact_requests_v, julianday, sqlMul, sqlSub, sqlEq, sqlLe, sqlUpper,
      sqlAnd_some_some, caseWhen_some, show pyUpper "Completed" = "COMPLETED" from by decide]

/-- C3: in both modes, `open_flag = 1` iff `upper(status)` is not
`'COMPLETED'` (a missing status counts as not completed), and `open_flag = 0`
iff `upper(status) = 'COMPLETED'`. -/
theorem open_flag_iff_not_completed (sla : Int) (r : RawRequest) :
    ((transform_311 sla r).open_flag = 1 ↔ ¬ (r.status.map pyUpper = some "COMPLETED"))
    ∧ ((transform_311 sla r).open_flag = 0 ↔ r.status.map pyUpper = some "COMPLETED")
    ∧ ((fact_requests_v r).open_flag = 1 ↔ ¬ (r.status.map pyUpper = some "COMPLETED"))
    ∧ ((fact_requests_v r).open_flag = 0 ↔ r.status.map pyUpper = some "COMPLETED") := by
  refine ⟨?_, ?_, ?_, ?_⟩
  · exact kpi_open_flag_eq_one_iff r
  · exact kpi_open_flag_eq_zero_iff r
  · rw [fact_v_open_flag]
    exact kpi_open_flag_eq_one_iff r
  · rw [fact_v_open_flag]
    exact kpi_open_flag_eq_zero_iff r

/-- C4 (counterexample): `sla_target_h` is NOT taken from the run
configuration in both modes: with `SLA_HOURS=100` in the environment, an ETL
fact row stores 100 while the ELT view stores its hardcoded literal 72. -/
theorem sla_target_differs_between_modes :
    (transform_311 (SLA_HOURS (some 100))
        ⟨"SR-C4", some "Open", some 0, none⟩).sla_target_h ≠
      (fact_requests_v ⟨"SR-C4", some "Open", some 0, none⟩).sla_target_h := by
  rw [transform_sla_target, fact_v_sla_target]
  norm_num [SLA_HOURS]

/-- C4 (amended): in ETL mode `sla_target_h` is the run-wide constant read
from the environment (default 72 when absent), stored in every row and used
as the SLA threshold; in ELT mode both the stored `sla_target_h` and the
threshold are the literal 72, regardless of configuration — shown on a
completed request resolved in 80 hours (288000 s), which meets SLA under
`SLA_HOURS=100` in ETL but not under the default nor in the ELT view. -/
theorem sla_target_stored_and_used (env : Option Int) (r : RawRequest) :
    SLA_HOURS none = 72
    ∧ (transform_311 (SLA_HOURS env) r).sla_target_h = ((SLA_HOURS env : Int) : ℚ)
    ∧ (fact_requests_v r).sla_target_h = 72
    ∧ (transform_311 (SLA_HOURS env) r).sla_met = kpi_sla_met ((SLA_HOURS env : Int) : ℚ) r
    ∧ (fact_requests_v r).sla_met = kpi_sla_met 72 r
    ∧ (transform_311 (SLA_HOURS (some 100))
        ⟨"SR-C4b", some "Completed", some 0, some 288000⟩).sla_met = 1
    ∧ (transform_311 (SLA_HOURS none)
        ⟨"SR-C4b", some "Completed", some 0, some 288000⟩).sla_met = 0
    ∧ (fact_requests_v ⟨"SR-C4b", some "Completed", some 0, some 288000⟩).sla_met = 0 := by
  refine ⟨rfl, rfl, rfl, transform_sla_met _ r, fact_v_sla_met r, ?_, ?_, ?_⟩
  · norm_num [transform_311, pandas_resolution_time_h, SLA_HOURS,
      show pyUpper "Completed" = "COMPLETED" from by decide]
  · norm_num [transform_311, pandas_resolution_time_h, SLA_HOURS,
      show pyUpper "Completed" = "COMPLETED" from by decide]
  · norm_num [fact_requests_v, julianday, sqlMul, sqlSub, sqlEq, sqlLe, sqlUpper,
      sqlAnd_some_some, caseWhen_some, show pyUpper "Completed" = "COMPLETED" from by decide]

/-- C10: a row whose status is missing gets `open_flag = 1` and `sla_met = 0`
in both modes: in ETL the null status makes the not-equal test true and the
equality test false, and in the ELT view the `NULL`-valued CASE conditions
fall through to the ELSE branch. -/
theorem null_status_open_and_not_sla (sla : Int) (r : RawRequest)
    (h : r.status = none) :
    (transform_311 sla r).open_flag = 1 ∧ (transform_311 sla r).sla_met = 0
    ∧ (fact_requests_v r).open_flag = 1 ∧ (fact_requests_v r).sla_met = 0 := by
  refine ⟨?_, ?_, ?_, ?_⟩
  · rw [transform_open_flag]
    simp [kpi_open_flag, h]
  · rw [transform_sla_met]
    simp [kpi_sla_met, h]
  · rw [fact_v_open_flag]
    simp [kpi_open_flag, h]
  · rw [fact_v_sla_met]
    simp [kpi_sla_met, h]

/-- C10 (witness): the missing-status rule evaluated on a concrete row. -/
theorem null_status_open_and_not_sla_witness :
    (transform_311 72 ⟨"SR-C10", none, some 0, some 3600⟩).open_flag = 1
    ∧ (transform_311 72 ⟨"SR-C10", none, some 0, some 3600⟩).sla_met = 0
    ∧ (fact_requests_v ⟨"SR-C10", none, some 0, some 3600⟩).open_flag = 1
    ∧ (fact_requests_v ⟨"SR-C10", none, some 0, some 3600⟩).sla_met = 0 :=
  null_status_open_and_not_sla 72 ⟨"SR-C10", none, some 0, some 3600⟩ rfl

/-- C5: the resolver normalizes headers into a normalized-to-original lookup
and probes the fixed ordered alias lists, returning the original header of the
first alias present: on `["AREA_NUMBE","COMMUNITY","SHAPE_AREA"]` it yields
code→`AREA_NUMBE`, name→`COMMUNITY`; even when a later alias also matches an
earlier header (`"COMMUNITY AREA NUMBER"`), the first alias `"area_numbe"`
wins; and every lookup hit is an original header whose normalization is the
probed key. -/
theorem resolver_first_alias_wins :
    resolve_mapping_columns ["AREA_NUMBE", "COMMUNITY", "SHAPE_AREA"]
        = Except.ok ("AREA_NUMBE", "COMMUNITY")
    ∧ resolve_mapping_columns ["COMMUNITY AREA NUMBER", "AREA_NUMBE", "COMMUNITY"]
        = Except.ok ("AREA_NUMBE", "COMMUNITY")
    ∧ _norm "  Area   NUMBE " = "area numbe"
    ∧ (∀ cols k c, lookup cols k = some c → c ∈ cols ∧ _norm c = k) := by
  refine ⟨rfl, rfl, by decide, ?_⟩
  intro cols k c h
  have hc : c ∈ (cols.filter (fun x => _norm x == k)).getLast? := h
  obtain ⟨hne, hcl⟩ := List.mem_getLast?_eq_getLast hc
  have hmem : c ∈ cols.filter (fun x => _norm x == k) := by
    rw [hcl]
    exact List.getLast_mem hne
  rcases List.mem_filter.mp hmem with ⟨h1, h2⟩
  exact ⟨h1, by simpa using h2⟩

/-- C5 (witness): the lookup property applied at a concrete header list. -/
theorem resolver_first_alias_wins_witness :
    "AREA_NUMBE" ∈ ["AREA_NUMBE", "COMMUNITY"] ∧ _norm "AREA_NUMBE" = "area_numbe" :=
  resolver_first_alias_wins.2.2.2 ["AREA_NUMBE", "COMMUNITY"] "area_numbe" "AREA_NUMBE"
    (by decide)

/-- C6: when either the code role or the name role matches no header, the
resolution step produces the diagnostic error carrying the full header list
(and no `(id_col, name_col)` result); concretely so for headers containing no
known alias. -/
theorem resolver_missing_role_errors :
    resolve_mapping_columns ["FOO", "BAR", "BAZ"] = Except.error ["FOO", "BAR", "BAZ"]
    ∧ (∀ cols : List String,
        findRole ID_KEYS cols = none ∨ findRole NAME_KEYS cols = none →
          resolve_mapping_columns cols = Except.error cols) := by
  refine ⟨rfl, ?_⟩
  intro cols h
  rcases h with h | h <;> simp [resolve_mapping_columns, h, pyFalsy]

/-- C6 (witness): the failure rule applied at a concrete header list. -/
theorem resolver_missing_role_errors_witness :
    resolve_mapping_columns ["SHAPE_AREA", "PERIMETER"]
      = Except.error ["SHAPE_AREA", "PERIMETER"] :=
  resolver_missing_role_errors.2 ["SHAPE_AREA", "PERIMETER"] (Or.inl (by decide))

/-- C7: the robust reader retries with a semicolon delimiter when the naive
parse yields exactly one column; on a decode error it re-parses as latin-1
(applying the same one-column semicolon retry), and failures of the retries
propagate as hard errors with no further fallback (a non-decode error of the
naive parse also propagates directly). -/
theorem robust_reader_cases (T : Type) (read_csv : Enc → Delim → Except ReadErr T)
    (ncols : T → Nat) (t t2 : T) (e : ReadErr) :
    (read_csv .utf8 .comma = .ok t → ncols t ≠ 1 →
      _robust_read_csv_local read_csv ncols = .ok t)
    ∧ (read_csv .utf8 .comma = .ok t → ncols t = 1 → read_csv .utf8 .semicolon = .ok t2 →
      _robust_read_csv_local read_csv ncols = .ok t2)
    ∧ (read_csv .utf8 .comma = .error .decodeErr → read_csv .latin1 .comma = .ok t →
        ncols t ≠ 1 →
      _robust_read_csv_local read_csv ncols = .ok t)
    ∧ (read_csv .utf8 .comma = .error .decodeErr → read_csv .latin1 .comma = .ok t →
        ncols t = 1 →
      _robust_read_csv_local read_csv ncols = read_csv .latin1 .semicolon)
    ∧ (read_csv .utf8 .comma = .error .decodeErr → read_csv .latin1 .comma = .error e →
      _robust_read_csv_local read_csv ncols = .error e)
    ∧ (read_csv .utf8 .comma = .error .otherErr →
      _robust_read_csv_local read_csv ncols = .error .otherErr) := by
  refine ⟨?_, ?_, ?_, ?_, ?_, ?_⟩
  · intro h1 h2
    simp [_robust_read_csv_local, h1, h2]
  · intro h1 h2 h3
    simp [_robust_read_csv_local, h1, h2, h3]
  · intro h1 h2 h3
    simp [_robust_read_csv_local, h1, h2, h3]
  · intro h1 h2 h3
    simp [_robust_read_csv_local, h1, h2, h3]
  · intro h1 h2
    simp [_robust_read_csv_local, h1, h2]
  · intro h1
    simp [_robust_read_csv_local, h1]

/-- C7 (witness): a reader whose naive utf-8 parse yields one column is
re-parsed with the semicolon delimiter (tables abstracted to their column
count). -/
theorem robust_reader_cases_witness :
    _robust_read_csv_local
        (fun enc d =>
          match enc, d with
          | Enc.utf8, Delim.comma => Except.ok 1
          | Enc.utf8, Delim.semicolon => Except.ok 3
          | Enc.latin1, _ => Except.error ReadErr.otherErr)
        (fun n => n) = Except.ok 3 :=
  (robust_reader_cases Nat
    (fun enc d =>
      match enc, d with
      | Enc.utf8, Delim.comma => Except.ok 1
      | Enc.utf8, Delim.semicolon => Except.ok 3
      | Enc.latin1, _ => Except.error ReadErr.otherErr)
    (fun n => n) 1 3 ReadErr.otherErr).2.1 rfl rfl rfl

/-- C8 (counterexample): the stored area name is NOT whitespace-collapsed:
for the source cell `" FOO  BAR "` the pipelines store `"FOO  BAR"` (trim and
upper-case only), not the `"FOO BAR"` demanded by the collapse-whitespace
wording. -/
theorem area_name_whitespace_not_collapsed :
    (canonical_area_key "1" " FOO  BAR ").2 = "FOO  BAR"
    ∧ spec_normalize_area_name " FOO  BAR " = "FOO BAR"
    ∧ (canonical_area_key "1" " FOO  BAR ").2 ≠ spec_normalize_area_name " FOO  BAR " :=
  ⟨by decide, by decide, by decide⟩

/-- C8 (amended): per reference row, an area-code cell that fails integer
coercion becomes an absent (`none`) code rather than an error, and the stored
area name is always the source name trimmed and upper-cased, with internal
whitespace preserved as-is. -/
theorem area_key_nullable_code_trimmed_name (c n : String) :
    ((canonical_area_key c n).1 = to_numeric_coerce c
      ∧ (canonical_area_key c n).2 = pyUpper (pyStrip n))
    ∧ canonical_area_key "ABC" " Lake  View " = (none, "LAKE  VIEW")
    ∧ canonical_area_key " 42 " "Loop" = (some 42, "LOOP")
    ∧ canonical_area_key "-7" "  hyde  park  " = (some (-7), "HYDE  PARK") :=
  ⟨⟨rfl, rfl⟩, by decide, by decide, by decide⟩

/-- C9: loading the fact table is idempotent: re-running the
insert-or-replace upsert (keyed by the `sr_number` primary key) with the same
input rows leaves the table exactly as after one run — same rows, same count —
and a load into the fresh (empty) store never produces duplicate keys. -/
theorem load_fact_idempotent (Row : Type) (t rows : List (String × Row)) :
    load_fact (load_fact t rows) rows = load_fact t rows
    ∧ ((load_fact ([] : List (String × Row)) rows).map Prod.fst).Nodup :=
  ⟨load_fact_idem t rows, keys_load_fact_nil_nodup rows⟩

end TicketPipeline
